import Mathlib

/-!
# Verification of the agentic-chat round-table orchestrator

Shallow embedding of the discussion orchestrator in `chat.py` (class
`ChatRoom` and `OllamaBot`) and of the TUI history/persistence layer in
`chat_tui.py` (class `ChatTUI`), together with proofs settling the frozen
specification claims.

Modelling conventions:
* External effects (the Ollama HTTP call, `espeak-ng`, wall-clock time,
  printing) are abstracted by oracles: a generation request's outcome is an
  `Option String` (`some full_response` on HTTP success, `none` when
  `requests` raises a `RequestException`, which includes request timeouts).
* `time.time()` is modelled by a `Nat` tick incremented once per appended
  turn.
* The `concurrent.futures` one-ahead pipeline of `ChatRoom.start_discussion`
  is modelled by explicit state passing: the pending future is an
  `Option PendingGen` in the loop state, and the oracle decides whether
  `future_response.result(timeout=1)` raises `TimeoutError`
  (`GenOracle.timedOut`) and whether the abandoned, never-cancelled call is
  still in flight while the synchronous replacement runs
  (`GenOracle.lateResolve`).
* Python exceptions that escape (the `IndexError` from `self.bots[bot_index]`
  on an empty bot list) are modelled with `Except String`.
-/

namespace AgenticChat

/-- `OllamaBot.__init__` (chat.py lines 14-19): a bot persona. -/
structure Bot where
  name : String
  ollama_url : String
  model : String
  personality : String
deriving DecidableEq

/-- One element of `ChatRoom.conversation_history` (chat.py lines 114-120):
a dict with keys `bot`, `message`, `timestamp`. -/
structure Entry where
  bot : String
  message : String
  timestamp : Nat
deriving DecidableEq

/-- Python's `str.strip()`: remove whitespace from both ends. -/
def pyStrip (s : String) : String :=
  ⟨((s.data.dropWhile Char.isWhitespace).reverse.dropWhile
      Char.isWhitespace).reverse⟩

/-- Python's `s.startswith(p)`. -/
def pyStartsWith (s p : String) : Bool :=
  p.data.isPrefixOf s.data

/-- `OllamaBot.generate_response_stream` (chat.py lines 21-65), with the HTTP
interaction abstracted: on success the accumulated `full_response` is given by
the oracle and the function returns `full_response.strip()`; when `requests`
raises a `RequestException` (line 62) the error-marker string of line 63 is
returned. -/
def generate_response_stream (bot : Bot) (outcome : Option String) : String :=
  match outcome with
  | some full_response => pyStrip full_response
  | none => "[Error: Could not get response from " ++ bot.name ++ "]"

/-- `ChatRoom.add_to_history` (chat.py lines 114-120): append a dict to
`conversation_history`; `time.time()` is the `now` tick. -/
def add_to_history (history : List Entry) (bot_name message : String)
    (now : Nat) : List Entry :=
  history ++ [{ bot := bot_name, message := message, timestamp := now }]

/-- The Python slice `self.conversation_history[-10:]` of chat.py line 110:
the last 10 elements (the whole list when it is shorter). -/
def lastTenSlice (history : List Entry) : List Entry :=
  history.drop (history.length - 10)

/-- `ChatRoom.get_conversation_context` (chat.py lines 104-112); identical
code appears as `ChatTUI.get_conversation_context` (chat_tui.py lines
142-150). Returns the sentinel when the history is empty, else folds
`context += f"{entry.bot}: {entry.message}\n"` over the last-10 slice. -/
def get_conversation_context (history : List Entry) : String :=
  if history.isEmpty then "No previous conversation."
  else (lastTenSlice history).foldl
    (fun context entry => context ++ entry.bot ++ ": " ++ entry.message ++ "\n") ""

/-- State of the TTS machinery of `ChatRoom` (chat.py lines 72-77):
`tts_enabled`, the worker-liveness flag `tts_active`, the `queue.Queue`
contents in FIFO order (`none` is the `None` shutdown sentinel of line 177),
and the queue's unfinished-task counter (incremented by `put`, decremented
by `task_done`), which `Queue.join` waits on. -/
structure TTSQueueState where
  tts_enabled : Bool
  tts_active : Bool
  queue : List (Option (String × String))
  unfinished : Nat
deriving DecidableEq

/-- `ChatRoom.queue_tts` (chat.py lines 161-164): enqueue `(text, bot_name)`
iff TTS is enabled, the text is non-empty and it does not start with
`"[Error:"`. Note: there is no check of any closed/shutdown flag. -/
def queue_tts (s : TTSQueueState) (text bot_name : String) : TTSQueueState :=
  if s.tts_enabled && text != "" && !(pyStartsWith text "[Error:") then
    { s with queue := s.queue ++ [some (text, bot_name)],
             unfinished := s.unfinished + 1 }
  else s

/-- `ChatRoom.stop_tts_thread` (chat.py lines 173-179): if the worker is
active, clear `tts_active` and `put(None)` (the shutdown sentinel; `put`
also increments the unfinished counter). The `join` on the thread has no
effect on the queue contents. -/
def stop_tts_thread (s : TTSQueueState) : TTSQueueState :=
  if s.tts_active then
    { s with tts_active := false, queue := s.queue ++ [none],
             unfinished := s.unfinished + 1 }
  else s

/-- `ChatRoom.tts_worker` (chat.py lines 143-159) consuming a FIFO queue
prefix: returns the `(text, bot_name)` tasks handed to `speak_text`, in
dequeue order, and the number of `task_done()` calls made. `fails i` says
whether `speak_text` raises on the `i`-th dequeued task: on success the
worker calls `task_done()` (line 154); on an exception the generic handler
logs and calls `task_done()` (lines 157-159) — one call either way. A `None`
task breaks the loop (lines 149-150) without `task_done`. -/
def tts_worker_run (fails : Nat → Bool) :
    Nat → List (Option (String × String)) → List (String × String) × Nat
  | _, [] => ([], 0)
  | _, none :: _ => ([], 0)
  | i, some task :: rest =>
    let r := tts_worker_run fails (i + 1) rest
    if fails i then (task :: r.1, r.2 + 1)
    else (task :: r.1, r.2 + 1)

/-- Oracle for the nondeterministic environment of
`ChatRoom.start_discussion` (chat.py lines 203-288).
`preOutcome k` is the HTTP outcome of the pre-generation submitted to the
executor at the end of iteration `k` (line 264); `syncOutcome k` that of a
synchronous `generate_bot_response` issued during iteration `k` (lines 236
and 242); `timedOut k` says whether `future_response.result(timeout=1)`
raises `TimeoutError` at iteration `k` (line 232); `lateResolve k` says
whether the abandoned, never-cancelled pre-generation is still in flight
while the synchronous replacement of lines 233-237 runs. -/
structure GenOracle where
  preOutcome : Nat → Option String
  syncOutcome : Nat → Option String
  timedOut : Nat → Bool
  lateResolve : Nat → Bool

/-- The `future_response` of chat.py line 264: an executor-submitted
`generate_bot_response(next_bot, next_context, timeout)` call. The context
string actually passed is `get_conversation_context ctxHistory`, where
`ctxHistory` is the history snapshot current when `next_context` was read at
line 261. `iter` is the loop iteration at which the future was submitted,
indexing the oracle. -/
structure PendingGen where
  bot : Bot
  ctxHistory : List Entry
  iter : Nat

/-- State of the `while True` loop of `ChatRoom.start_discussion`
(chat.py lines 219-281), together with two instrumentation traces:
`usedContexts` records, per produced turn, the history snapshot whose
context string was passed to the generation call that produced that turn,
and `peaks` records, per iteration, a lower bound on the number of
generation calls simultaneously in flight at some instant of that
iteration, counting only the calls this iteration awaits or issues (the
awaited future or the synchronous call, plus the abandoned future when it
was still running as the replacement started). Calls abandoned at earlier
iterations keep running untracked in the two-worker pool, so the true
concurrency can exceed the recorded value. -/
structure LoopState where
  bots : List Bot
  history : List Entry
  tts : TTSQueueState
  botIndex : Nat
  future : Option PendingGen
  clock : Nat
  usedContexts : List (List Entry)
  peaks : List Nat

/-- One iteration of the `while True` loop of `ChatRoom.start_discussion`
(chat.py lines 223-281) at iteration counter `k`:
`self.bots[bot_index]` (line 224, `IndexError` when out of range); resolve
the pre-generated future or fall back to a synchronous generation on
`TimeoutError` (lines 227-243) — on the timeout path the abandoned future is
not cancelled, so at least two calls are in flight while it is still running
(`lateResolve`); the recorded per-iteration count is a lower bound only,
since calls abandoned at earlier iterations keep running untracked;
`add_to_history` (line 246); conditional `queue_tts`
(lines 249-251); compute `next_bot_index` circularly (line 254); read
`next_context` from the just-updated history (line 261) and submit the next
future (lines 264-269); advance `bot_index` (line 278). The TTS join of line
272 and the sleeps affect timing only, not any recorded state. -/
def discussionStep (o : GenOracle) (k : Nat) (s : LoopState) :
    Except String LoopState :=
  match s.bots[s.botIndex]? with
  | none => Except.error "IndexError"
  | some bot =>
    let resolved : String × List Entry × Nat :=
      match s.future with
      | some pending =>
        if o.timedOut k then
          (generate_response_stream bot (o.syncOutcome k), s.history,
            if o.lateResolve k then 2 else 1)
        else
          (generate_response_stream pending.bot (o.preOutcome pending.iter),
            pending.ctxHistory, 1)
      | none =>
        (generate_response_stream bot (o.syncOutcome k), s.history, 1)
    let response := resolved.1
    let usedCtx := resolved.2.1
    let peak := resolved.2.2
    let history2 := add_to_history s.history bot.name response s.clock
    let tts2 :=
      if response != "" && !(pyStartsWith response "[Error:") then
        queue_tts s.tts response bot.name
      else s.tts
    let next_bot_index := (s.botIndex + 1) % s.bots.length
    match s.bots[next_bot_index]? with
    | none => Except.error "IndexError"
    | some next_bot =>
      Except.ok { s with
        history := history2
        tts := tts2
        botIndex := next_bot_index
        future := some { bot := next_bot, ctxHistory := history2, iter := k }
        clock := s.clock + 1
        usedContexts := s.usedContexts ++ [usedCtx]
        peaks := s.peaks ++ [peak] }

/-- The Moderator seed entry appended by chat.py line 210. -/
def seedEntry (topic : String) : Entry :=
  { bot := "Moderator"
    message := "Today's discussion topic is: " ++ topic
    timestamp := 0 }

/-- The prelude of `ChatRoom.start_discussion` before the loop (chat.py
lines 203-221): seed the history with the Moderator topic turn (line 210)
and start the TTS worker (line 215); `future_response = None`, `bot_index =
0` (lines 220-221). No precondition on `bots` or `topic` is checked. -/
def seedState (bots : List Bot) (topic : String) : LoopState :=
  { bots := bots
    history := add_to_history [] "Moderator"
      ("Today's discussion topic is: " ++ topic) 0
    tts := { tts_enabled := true, tts_active := true, queue := [],
             unfinished := 0 }
    botIndex := 0
    future := none
    clock := 1
    usedContexts := []
    peaks := [] }

/-- `ChatRoom.start_discussion` run for `n` iterations of the loop. -/
def runRound (o : GenOracle) (bots : List Bot) (topic : String) :
    Nat → Except String LoopState
  | 0 => Except.ok (seedState bots topic)
  | n + 1 =>
    match runRound o bots topic n with
    | Except.error e => Except.error e
    | Except.ok s => discussionStep o n s

/-! ## The TUI history/persistence layer (`chat_tui.py`) -/

/-- State of `ChatTUI` relevant to history and persistence:
`conversation_history` (chat_tui.py line 81) and the session log file,
modelled as the ordered list of `(bot_name, message)` records appended by
`ChatTUI.log_message`. -/
structure TUIState where
  conversation_history : List Entry
  log_file : List (String × String)
deriving DecidableEq

/-- `ChatTUI.log_message` with `is_topic=False` (chat_tui.py lines 128-140):
one append-only write of the `(bot_name, message)` record to the session
file. -/
def log_message (s : TUIState) (bot_name message : String) : TUIState :=
  { s with log_file := s.log_file ++ [(bot_name, message)] }

/-- `ChatTUI.add_to_history` (chat_tui.py lines 152-161): append the entry
to `conversation_history`, then log it to the session file unless the
speaker is the synthetic `"Moderator"`. -/
def add_to_history_tui (s : TUIState) (bot_name message : String)
    (now : Nat) : TUIState :=
  let s1 := { s with conversation_history :=
    s.conversation_history ++ [{ bot := bot_name, message := message,
                                 timestamp := now }] }
  if bot_name ≠ "Moderator" then log_message s1 bot_name message else s1

/-- A sequence of `ChatTUI.add_to_history` calls, in order. -/
def applyAppends (s : TUIState) : List (String × String × Nat) → TUIState
  | [] => s
  | a :: rest => applyAppends (add_to_history_tui s a.1 a.2.1 a.2.2) rest

/-! ## Closed forms for the discussion loop -/

/-- The bot speaking at loop iteration `k`: `self.bots[k % len(self.bots)]`
(total version; the fallback is unreachable for a non-empty bot list). -/
def nthBot (bots : List Bot) (k : Nat) : Bot :=
  bots.getD (k % bots.length)
    { name := "", ollama_url := "", model := "", personality := "" }

/-- The HTTP outcome of the generation call whose result is appended at
iteration `k`: iteration `0` generates synchronously; iteration `k+1` uses
the future submitted at iteration `k` unless its 1-second wait timed out, in
which case a fresh synchronous call is used. -/
def responseOutcome (o : GenOracle) : Nat → Option String
  | 0 => o.syncOutcome 0
  | k + 1 => if o.timedOut (k + 1) then o.syncOutcome (k + 1) else o.preOutcome k

/-- The text appended to the history at iteration `k`. -/
def turnText (o : GenOracle) (bots : List Bot) (k : Nat) : String :=
  generate_response_stream (nthBot bots k) (responseOutcome o k)

/-- The history entry produced by iteration `k` (history index `k + 1`). -/
def turnEntry (o : GenOracle) (bots : List Bot) (k : Nat) : Entry :=
  { bot := (nthBot bots k).name, message := turnText o bots k,
    timestamp := k + 1 }

/-- The conversation history after `n` loop iterations. -/
def historyAfter (o : GenOracle) (bots : List Bot) (topic : String)
    (n : Nat) : List Entry :=
  seedEntry topic :: (List.range n).map (turnEntry o bots)

/-- The TTS task enqueued at iteration `k`, if any: lines 249-251 guard the
`queue_tts` call by the same non-empty/non-error-marker condition that
`queue_tts` itself rechecks. -/
def ttsTaskOf (o : GenOracle) (bots : List Bot) (k : Nat) :
    Option (String × String) :=
  let t := turnText o bots k
  if t != "" && !(pyStartsWith t "[Error:") then some (t, (nthBot bots k).name)
  else none

/-- Lower bound on the number of generation calls simultaneously in flight
at some instant of iteration `k`: 1 normally (the awaited future, or the
synchronous call at iteration 0), and 2 when the 1-second wait times out
and the abandoned pre-generation is still running while its synchronous
replacement executes. Calls abandoned at earlier iterations are not
counted, so this is not an upper bound on the program's concurrency. -/
def peakAt (o : GenOracle) : Nat → Nat
  | 0 => 1
  | k + 1 =>
    if o.timedOut (k + 1) then (if o.lateResolve (k + 1) then 2 else 1) else 1

/-- Closed form of the loop state after `n` iterations (for a non-empty bot
list). -/
def closedState (o : GenOracle) (bots : List Bot) (topic : String)
    (n : Nat) : LoopState :=
  { bots := bots
    history := historyAfter o bots topic n
    tts := { tts_enabled := true, tts_active := true
             queue := ((List.range n).filterMap (ttsTaskOf o bots)).map some
             unfinished := ((List.range n).filterMap (ttsTaskOf o bots)).length }
    botIndex := n % bots.length
    future :=
      if n = 0 then none
      else some { bot := nthBot bots n
                  ctxHistory := historyAfter o bots topic n
                  iter := n - 1 }
    clock := n + 1
    usedContexts := (List.range n).map (historyAfter o bots topic)
    peaks := (List.range n).map (peakAt o) }

theorem getElem?_mod_nthBot (bots : List Bot) (hb : bots ≠ []) (k : Nat) :
    bots[k % bots.length]? = some (nthBot bots k) := by
  have h : k % bots.length < bots.length :=
    Nat.mod_lt _ (List.length_pos.mpr hb)
  simp [nthBot, List.getD_eq_getElem?_getD, List.getElem?_eq_getElem h]

theorem getElem?_zero_nthBot (bots : List Bot) (hb : bots ≠ []) :
    bots[(0 : Nat)]? = some (nthBot bots 0) := by
  have h := getElem?_mod_nthBot bots hb 0
  simpa using h

theorem historyAfter_succ (o : GenOracle) (bots : List Bot) (topic : String)
    (n : Nat) :
    historyAfter o bots topic (n + 1) =
      historyAfter o bots topic n ++ [turnEntry o bots n] := by
  simp [historyAfter, List.range_succ]

/-- One loop iteration takes the closed-form state to the next one. -/
theorem discussionStep_closed (o : GenOracle) (bots : List Bot)
    (topic : String) (hb : bots ≠ []) (n : Nat) :
    discussionStep o n (closedState o bots topic n) =
      Except.ok (closedState o bots topic (n + 1)) := by
  cases n with
  | zero =>
    by_cases hq : (¬ generate_response_stream (nthBot bots 0)
          (o.syncOutcome 0) = "" ∧
        pyStartsWith (generate_response_stream (nthBot bots 0)
          (o.syncOutcome 0)) "[Error:" = false) <;>
      simp [discussionStep, closedState, getElem?_mod_nthBot bots hb,
        getElem?_zero_nthBot bots hb, historyAfter, turnEntry, turnText,
        responseOutcome, peakAt, ttsTaskOf, queue_tts, add_to_history,
        List.range_succ, List.filterMap_cons, hq]
  | succ m =>
    by_cases ht : o.timedOut (m + 1)
    · by_cases hq : (¬ generate_response_stream (nthBot bots (m + 1))
            (o.syncOutcome (m + 1)) = "" ∧
          pyStartsWith (generate_response_stream (nthBot bots (m + 1))
            (o.syncOutcome (m + 1))) "[Error:" = false) <;>
        simp [discussionStep, closedState, getElem?_mod_nthBot bots hb,
          historyAfter_succ, turnEntry, turnText, responseOutcome, peakAt,
          ttsTaskOf, queue_tts, add_to_history, List.range_succ,
          List.filterMap_cons, ht, hq] <;>
        try (split <;> simp_all)
    · by_cases hq : (¬ generate_response_stream (nthBot bots (m + 1))
            (o.preOutcome m) = "" ∧
          pyStartsWith (generate_response_stream (nthBot bots (m + 1))
            (o.preOutcome m)) "[Error:" = false) <;>
        simp [discussionStep, closedState, getElem?_mod_nthBot bots hb,
          historyAfter_succ, turnEntry, turnText, responseOutcome, peakAt,
          ttsTaskOf, queue_tts, add_to_history, List.range_succ,
          List.filterMap_cons, ht, hq] <;>
        try (split <;> simp_all)

/-- For a non-empty bot list, `runRound` never raises and its state after
`n` iterations is the closed form `closedState`. -/
theorem runRound_closed (o : GenOracle) (bots : List Bot) (topic : String)
    (hb : bots ≠ []) : ∀ n : Nat,
    runRound o bots topic n = Except.ok (closedState o bots topic n)
  | 0 => by
    simp [runRound, closedState, seedState, historyAfter, add_to_history,
      seedEntry]
  | n + 1 => by
    rw [runRound, runRound_closed o bots topic hb n]
    exact discussionStep_closed o bots topic hb n

/-! ## Context-window refinement (claim C6) -/

/-- Modelled from the spec: the last `k` turns of the history, written the
spec's way (take `k` from the reversed list), for comparison with the
source-translated `lastTenSlice`. -/
def lastNWindow (k : Nat) (l : List Entry) : List Entry :=
  (l.reverse.take k).reverse

/-- Modelled from the spec: `contextWindow(k)` "returns the last `k` turns
formatted as speaker: text lines, or a sentinel no-history value when
empty". -/
def contextWindowSpec (k : Nat) (history : List Entry) : String :=
  if history = [] then "No previous conversation."
  else String.join ((lastNWindow k history).map
    (fun e => e.bot ++ ": " ++ e.message ++ "\n"))

theorem string_join_cons (x : String) (xs : List String) :
    String.join (x :: xs) = x ++ String.join xs := by
  apply String.ext
  simp

theorem foldl_context_eq_join :
    ∀ (l : List Entry) (acc : String),
      l.foldl (fun context entry =>
          context ++ entry.bot ++ ": " ++ entry.message ++ "\n") acc =
        acc ++ String.join (l.map
          (fun e => e.bot ++ ": " ++ e.message ++ "\n"))
  | [], acc => by simp [String.join]
  | e :: l, acc => by
    rw [List.foldl_cons, foldl_context_eq_join l, List.map_cons,
      string_join_cons]
    simp [String.append_assoc]

theorem lastTenSlice_eq_lastNWindow (l : List Entry) :
    lastTenSlice l = lastNWindow 10 l := by
  simp [lastTenSlice, lastNWindow, List.take_reverse]

/-! ## TUI persistence (claim C8) -/

theorem applyAppends_spec :
    ∀ (l : List (String × String × Nat)) (s : TUIState),
      (applyAppends s l).log_file =
        s.log_file ++ (l.filter (fun a => a.1 != "Moderator")).map
          (fun a => (a.1, a.2.1)) ∧
      (applyAppends s l).conversation_history =
        s.conversation_history ++ l.map
          (fun a => { bot := a.1, message := a.2.1, timestamp := a.2.2 })
  | [], s => by simp [applyAppends]
  | a :: l, s => by
    by_cases h : a.1 = "Moderator" <;>
      simp [applyAppends, add_to_history_tui, log_message, h,
        (applyAppends_spec l), List.filter_cons]

/-! ## TTS worker accounting (claim C10) -/

theorem tts_worker_run_dones (fails : Nat → Bool) :
    ∀ (i : Nat) (tasks : List (Option (String × String))),
      (∀ t ∈ tasks, t ≠ none) →
      (tts_worker_run fails i tasks).2 = tasks.length
  | _, [], _ => rfl
  | i, none :: _, h => absurd (h none (List.mem_cons_self _ _)) (by simp)
  | i, some t :: rest, h => by
    have ih := tts_worker_run_dones fails (i + 1) rest
      (fun x hx => h x (List.mem_cons_of_mem _ hx))
    by_cases hf : fails i <;> simp [tts_worker_run, hf, ih]

theorem tts_worker_run_spoken (fails : Nat → Bool) :
    ∀ (i : Nat) (tasks : List (String × String)),
      (tts_worker_run fails i (tasks.map some)).1 = tasks
  | _, [] => rfl
  | i, t :: rest => by
    have ih := tts_worker_run_spoken fails (i + 1) rest
    by_cases hf : fails i <;> simp [tts_worker_run, hf, ih]

/-! ## Structure of the run history -/

/-- The history entry at log index `k`: the Moderator seed at index `0`, the
turn produced at iteration `k - 1` otherwise. -/
def entryAt (o : GenOracle) (bots : List Bot) (topic : String) : Nat → Entry
  | 0 => seedEntry topic
  | k + 1 => turnEntry o bots k

theorem historyAfter_take (o : GenOracle) (bots : List Bot) (topic : String)
    {k n : Nat} (hkn : k ≤ n) :
    (historyAfter o bots topic n).take (k + 1) =
      historyAfter o bots topic k := by
  simp [historyAfter, List.take_succ_cons, ← List.map_take, List.take_range,
    Nat.min_eq_left hkn]

theorem historyAfter_getElem (o : GenOracle) (bots : List Bot)
    (topic : String) {k n : Nat} (hkn : k ≤ n) :
    (historyAfter o bots topic n)[k]? = some (entryAt o bots topic k) := by
  cases k with
  | zero => simp [historyAfter, entryAt]
  | succ m =>
    have hm : m < n := by omega
    simp [historyAfter, entryAt, List.getElem?_map, List.getElem?_range hm]

theorem historyAfter_concat (o : GenOracle) (bots : List Bot)
    (topic : String) (k : Nat) :
    ∃ l, historyAfter o bots topic k = l ++ [entryAt o bots topic k] := by
  cases k with
  | zero => exact ⟨[], rfl⟩
  | succ m =>
    exact ⟨historyAfter o bots topic m, by
      rw [historyAfter_succ]
      rfl⟩

theorem lastTenSlice_append_singleton (l : List Entry) (e : Entry) :
    lastTenSlice (l ++ [e]) = l.drop (l.length + 1 - 10) ++ [e] := by
  have h : l.length - 9 ≤ l.length := by omega
  have h2 : l.length + 1 - 10 = l.length - 9 := by omega
  simp [lastTenSlice, h2, List.drop_append_of_le_length h]

/-- The formatted context of a history ending in `e` ends in `e`'s line. -/
theorem context_ends_with_last (l : List Entry) (e : Entry) :
    ∃ pre, get_conversation_context (l ++ [e]) =
      pre ++ e.bot ++ ": " ++ e.message ++ "\n" := by
  refine ⟨(l.drop (l.length + 1 - 10)).foldl
    (fun context entry =>
      context ++ entry.bot ++ ": " ++ entry.message ++ "\n") "", ?_⟩
  rw [get_conversation_context, if_neg (by simp)]
  rw [lastTenSlice_append_singleton, List.foldl_append]
  rfl

/-- Shape of any task ever enqueued on the TTS queue by the loop. -/
theorem ttsTaskOf_eq (o : GenOracle) (bots : List Bot) (k : Nat)
    (p : String × String) (h : ttsTaskOf o bots k = some p) :
    p = (turnText o bots k, (nthBot bots k).name) ∧
      pyStartsWith p.1 "[Error:" = false ∧ p.1 ≠ "" := by
  simp only [ttsTaskOf] at h
  split at h
  next hc =>
    cases h
    simp only [Bool.and_eq_true, bne_iff_ne, ne_eq, Bool.not_eq_true'] at hc
    exact ⟨rfl, hc.2, hc.1⟩
  next => cases h

/-- The per-iteration in-flight lower bounds recorded along a run, or `[]`
if the run raised. -/
def runPeaks (o : GenOracle) (bots : List Bot) (topic : String) (n : Nat) :
    List Nat :=
  ((runRound o bots topic n).map LoopState.peaks).toOption.getD []

/-! ## Concrete fixtures for witnesses and counterexamples -/

/-- Concrete persona used in witnesses. -/
def botA : Bot :=
  { name := "Alice", ollama_url := "http://localhost:11434", model := "m1",
    personality := "curious" }

/-- Second concrete persona used in witnesses. -/
def botB : Bot :=
  { name := "Bob", ollama_url := "http://localhost:11434", model := "m2",
    personality := "calm" }

/-- Oracle where every generation succeeds within the 1-second wait. -/
def oracleOk : GenOracle :=
  { preOutcome := fun _ => some "reply"
    syncOutcome := fun _ => some "reply"
    timedOut := fun _ => false
    lateResolve := fun _ => false }

/-- Oracle where the pre-generation awaited at iteration 1 times out after
the 1-second wait and the abandoned call is still running while the
synchronous replacement is generated. -/
def oracleTimeout : GenOracle :=
  { preOutcome := fun _ => some "pre"
    syncOutcome := fun _ => some "sync"
    timedOut := fun k => k == 1
    lateResolve := fun _ => true }

/-- Oracle whose very first generation raises a `RequestException` and
whose later calls succeed. -/
def oracleFailFirst : GenOracle :=
  { preOutcome := fun _ => some "fine"
    syncOutcome := fun k => if k == 0 then none else some "fine"
    timedOut := fun _ => false
    lateResolve := fun _ => false }

/-- Initial TTS state of a `ChatRoom` with TTS enabled and the worker
started (chat.py lines 72-77 and 166-171). -/
def ttsState0 : TTSQueueState :=
  { tts_enabled := true, tts_active := true, queue := [], unfinished := 0 }

/-! ## Claim C6 -/

/-- C6: the context projection `get_conversation_context` coincides, on
every history, with the spec's `contextWindow(10)`: the last 10 turns
formatted one per line as "speaker: text", and the sentinel
"No previous conversation." on an empty history. It is a pure function of
the history list (it takes and returns values; no state is mutated). -/
theorem c6_context_projection (history : List Entry) :
    get_conversation_context history = contextWindowSpec 10 history := by
  by_cases h : history = []
  · simp [get_conversation_context, contextWindowSpec, h]
  · rw [get_conversation_context, if_neg (by simpa using h),
      contextWindowSpec, if_neg h, lastTenSlice_eq_lastNWindow,
      foldl_context_eq_join]
    simp

/-! ## Claim C8 -/

/-- C8: along any sequence of `ChatTUI.add_to_history` calls, every
non-synthetic append (speaker other than "Moderator") triggers exactly one
append-only session-file write, the writes appear in exactly the in-memory
append order, and Moderator appends trigger no write: the final log file is
the ordered projection of the non-Moderator appends. -/
theorem c8_persistence_order (s : TUIState)
    (l : List (String × String × Nat)) :
    (applyAppends s l).log_file =
      s.log_file ++ (l.filter (fun a => a.1 != "Moderator")).map
        (fun a => (a.1, a.2.1)) ∧
    (applyAppends s l).conversation_history =
      s.conversation_history ++ l.map
        (fun a => { bot := a.1, message := a.2.1, timestamp := a.2.2 }) :=
  applyAppends_spec l s

/-! ## Claim C7 -/

/-- C7 counterexample: after `stop_tts_thread` has initiated shutdown, an
enqueue via `queue_tts` is silently accepted — the task lands on the queue
behind the `None` sentinel — rather than failing with any
`QueueClosedError`-like error (none exists in the code). -/
theorem c7_counterexample :
    (queue_tts (stop_tts_thread ttsState0) "hello" "Alice").queue =
      [none, some ("hello", "Alice")] := by
  decide

/-- C7 amended: `queue_tts` performs no closed-queue check at all: after
shutdown has been initiated, every enqueue attempt with TTS enabled,
non-empty text and no error-marker prefix is silently appended to the
queue; no enqueue ever fails. -/
theorem c7_amended (s : TTSQueueState) (text bot_name : String)
    (he : s.tts_enabled = true) (hne : text ≠ "")
    (hm : pyStartsWith text "[Error:" = false) :
    (queue_tts (stop_tts_thread s) text bot_name).queue =
      (stop_tts_thread s).queue ++ [some (text, bot_name)] := by
  by_cases ha : s.tts_active <;>
    simp [stop_tts_thread, queue_tts, ha, he, hne, hm]

/-- Witness for the amended C7 at a concrete state and text. -/
theorem c7_amended_witness :
    (queue_tts (stop_tts_thread ttsState0) "hi" "A").queue =
      (stop_tts_thread ttsState0).queue ++ [some ("hi", "A")] :=
  c7_amended ttsState0 "hi" "A" rfl (by decide) (by decide)

/-! ## Claim C10 -/

/-- C10: every `(text, speaker)` task the TTS worker dequeues receives
exactly one `task_done` call, including when narration raises (the generic
handler of chat.py lines 157-159 also calls `task_done`); during the
discussion round the queue holds only such tuple tasks, so the total
`task_done` count equals the number of enqueued tasks and the unfinished
counter that `wait_for_tts_completion`'s `join` blocks on reaches zero for
every narration-failure pattern. -/
theorem c10_task_done (o : GenOracle) (bots : List Bot) (topic : String)
    (n : Nat) (fails : Nat → Bool) (hb : bots ≠ []) :
    ∃ s, runRound o bots topic n = Except.ok s ∧
      (∀ t ∈ s.tts.queue, t ≠ none) ∧
      (tts_worker_run fails 0 s.tts.queue).2 = s.tts.queue.length ∧
      s.tts.unfinished - (tts_worker_run fails 0 s.tts.queue).2 = 0 := by
  have hall : ∀ t ∈ (closedState o bots topic n).tts.queue, t ≠ none := by
    intro t ht
    simp only [closedState, List.mem_map] at ht
    obtain ⟨a, _, rfl⟩ := ht
    simp
  refine ⟨closedState o bots topic n, runRound_closed o bots topic hb n,
    hall, tts_worker_run_dones fails 0 _ hall, ?_⟩
  rw [tts_worker_run_dones fails 0 _ hall]
  simp [closedState]

/-- Witness for C10 with two personas, three turns, and narration failing
on every task. -/
theorem c10_task_done_witness :
    ∃ s, runRound oracleOk [botA, botB] "T" 3 = Except.ok s ∧
      (∀ t ∈ s.tts.queue, t ≠ none) ∧
      (tts_worker_run (fun _ => true) 0 s.tts.queue).2 =
        s.tts.queue.length ∧
      s.tts.unfinished -
        (tts_worker_run (fun _ => true) 0 s.tts.queue).2 = 0 :=
  c10_task_done oracleOk [botA, botB] "T" 3 (fun _ => true) (by decide)

/-! ## Claim C1 -/

/-- C1 counterexample: with one persona, when the 1-second wait on the
pre-generated future times out at iteration 1 while the abandoned
(never-cancelled) call is still running, two generation calls are in
flight at once (the recorded in-flight lower bound reaches 2), refuting
"at most one outstanding generation call at every instant, for any
sequence of turns". -/
theorem c1_counterexample :
    2 ∈ runPeaks oracleTimeout [botA] "topic" 2 := by
  have h := runRound_closed oracleTimeout [botA] "topic" (by decide) 2
  unfold runPeaks
  rw [h]
  decide

/-- C1 amended: the orchestrator never awaits more than one pre-generated
future at a time, but the at-most-one bound on in-flight generation calls
is false: a timed-out future is never cancelled, so at every iteration
whose 1-second wait timed out while the abandoned call was still running,
at least two generation calls were in flight simultaneously. No upper
bound is asserted — abandoned calls keep running untracked across later
iterations, so with the two-worker pool plus the main thread's synchronous
replacement the program can exceed two concurrent requests. -/
theorem c1_amended (o : GenOracle) (bots : List Bot) (topic : String)
    (n k : Nat) (hb : bots ≠ []) (hk : k < n) (hk0 : k ≠ 0)
    (ht : o.timedOut k = true) (hl : o.lateResolve k = true) :
    (runPeaks o bots topic n)[k]? = some 2 := by
  unfold runPeaks
  rw [runRound_closed o bots topic hb n]
  simp only [closedState, Except.map, Except.toOption, Option.getD]
  rw [List.getElem?_map, List.getElem?_range hk]
  obtain ⟨m, rfl⟩ := Nat.exists_eq_succ_of_ne_zero hk0
  simp [peakAt, ht, hl]

/-- Witness for the amended C1 at the timed-out iteration of the
counterexample run. -/
theorem c1_amended_witness :
    (runPeaks oracleTimeout [botA] "topic" 2)[1]? = some 2 :=
  c1_amended oracleTimeout [botA] "topic" 2 1 (by decide) (by decide)
    (by decide) (by decide) (by decide)

/-! ## Claim C2 -/

/-- C2: the turn appended at log index `k + 1` is generated from a context
snapshot that is exactly the first `k + 1` history entries — it contains
turn `k` and no turn with index ≥ k + 1 (turn `k` was appended before the
context for the next generation was read) — and the formatted context
string for that generation ends with turn `k`'s "speaker: text" line. -/
theorem c2_context_happens_before (o : GenOracle) (bots : List Bot)
    (topic : String) (n k : Nat) (hb : bots ≠ []) (hk : k < n) :
    ∃ s, runRound o bots topic n = Except.ok s ∧
      s.usedContexts[k]? = some (s.history.take (k + 1)) ∧
      ∃ e, s.history[k]? = some e ∧
        ∃ pre, get_conversation_context (s.history.take (k + 1)) =
          pre ++ e.bot ++ ": " ++ e.message ++ "\n" := by
  have hkn : k ≤ n := Nat.le_of_lt hk
  have htake : (closedState o bots topic n).history.take (k + 1) =
      historyAfter o bots topic k := by
    simp only [closedState]
    exact historyAfter_take o bots topic hkn
  refine ⟨closedState o bots topic n, runRound_closed o bots topic hb n,
    ?_, ?_⟩
  · rw [htake]
    simp only [closedState]
    rw [List.getElem?_map, List.getElem?_range hk]
    rfl
  · refine ⟨entryAt o bots topic k, ?_, ?_⟩
    · simp only [closedState]
      exact historyAfter_getElem o bots topic hkn
    · rw [htake]
      obtain ⟨l, hl⟩ := historyAfter_concat o bots topic k
      rw [hl]
      exact context_ends_with_last l (entryAt o bots topic k)

/-- Witness for C2: two personas, two turns, the context for the turn at
log index 2 contains the turn at log index 1. -/
theorem c2_witness :
    ∃ s, runRound oracleOk [botA, botB] "T" 2 = Except.ok s ∧
      s.usedContexts[1]? = some (s.history.take 2) ∧
      ∃ e, s.history[1]? = some e ∧
        ∃ pre, get_conversation_context (s.history.take 2) =
          pre ++ e.bot ++ ": " ++ e.message ++ "\n" :=
  c2_context_happens_before oracleOk [botA, botB] "T" 2 1 (by decide)
    (by decide)

/-! ## Claim C3 -/

/-- C3: when the generation used at iteration `k` fails (a
`RequestException`, which includes request timeouts), the error-marker turn
"[Error: Could not get response from <name>]" is appended at log index
`k + 1`, the round-robin still gives the next speaker in rotation a normal
turn at log index `k + 2` (marker turn then normal turn, in that order),
and no task on the TTS queue ever carries an error-marker text. -/
theorem c3_failure_policy (o : GenOracle) (bots : List Bot) (topic : String)
    (n k : Nat) (hb : bots ≠ []) (hk : k + 1 < n)
    (hfail : responseOutcome o k = none) (t : String)
    (hnext : responseOutcome o (k + 1) = some t) :
    ∃ s, runRound o bots topic n = Except.ok s ∧
      s.history[k + 1]? = some
        { bot := (nthBot bots k).name
          message := "[Error: Could not get response from " ++
            (nthBot bots k).name ++ "]"
          timestamp := k + 1 } ∧
      s.history[k + 2]? = some
        { bot := (nthBot bots (k + 1)).name
          message := pyStrip t
          timestamp := k + 2 } ∧
      ∀ p : String × String, some p ∈ s.tts.queue →
        pyStartsWith p.1 "[Error:" = false := by
  refine ⟨closedState o bots topic n, runRound_closed o bots topic hb n,
    ?_, ?_, ?_⟩
  · have h := historyAfter_getElem o bots topic
      (k := k + 1) (n := n) (by omega)
    simp only [closedState]
    rw [h]
    simp [entryAt, turnEntry, turnText, hfail, generate_response_stream]
  · have h := historyAfter_getElem o bots topic
      (k := k + 2) (n := n) (by omega)
    simp only [closedState]
    rw [h]
    have h2 : entryAt o bots topic (k + 2) = turnEntry o bots (k + 1) := rfl
    rw [h2]
    simp [turnEntry, turnText, hnext, generate_response_stream]
  · intro p hp
    simp only [closedState, List.mem_map, Option.some.injEq] at hp
    obtain ⟨a, ha, rfl⟩ := hp
    obtain ⟨j, _, hj⟩ := List.mem_filterMap.mp ha
    exact (ttsTaskOf_eq o bots j a hj).2.1

/-- Witness for C3: the first generation fails, Alice's turn is the marker,
Bob still speaks right after, and the queue carries no marker text. -/
theorem c3_witness :
    ∃ s, runRound oracleFailFirst [botA, botB] "T" 2 = Except.ok s ∧
      s.history[1]? = some
        { bot := (nthBot [botA, botB] 0).name
          message := "[Error: Could not get response from " ++
            (nthBot [botA, botB] 0).name ++ "]"
          timestamp := 1 } ∧
      s.history[2]? = some
        { bot := (nthBot [botA, botB] 1).name
          message := pyStrip "fine"
          timestamp := 2 } ∧
      ∀ p : String × String, some p ∈ s.tts.queue →
        pyStartsWith p.1 "[Error:" = false :=
  c3_failure_policy oracleFailFirst [botA, botB] "T" 2 0 (by decide)
    (by decide) (by decide) "fine" (by decide)

/-! ## Claim C4 -/

/-- C4 counterexample: with zero configured personas, `start_discussion`
does not fail before the loop: its prelude runs unconditionally (the
Moderator seed turn is appended to the history and the TTS worker is
started), the loop is entered, and the first `self.bots[bot_index]` lookup
raises `IndexError` inside iteration 0 — there is no `ConfigError` and no
check before the loop. -/
theorem c4_counterexample :
    (seedState [] "X").history = [seedEntry "X"] ∧
    (seedState [] "X").tts.tts_active = true ∧
    runRound oracleOk [] "X" 1 = Except.error "IndexError" := by
  refine ⟨rfl, rfl, rfl⟩

/-- C4 amended: `start_discussion` checks no precondition at all. With zero
personas the Moderator seed turn is still appended (and the TTS thread
started), and every run of at least one iteration aborts with the
`IndexError` raised by the first speaker lookup inside the loop — not with
a `ConfigError` before it; with at least one persona the loop runs without
complaint even for an empty topic string. -/
theorem c4_amended (topic : String) (o : GenOracle) (n : Nat) :
    (seedState [] topic).history = [seedEntry topic] ∧
    runRound o [] topic (n + 1) = Except.error "IndexError" ∧
    ∀ b : Bot, ∃ s, runRound o [b] "" (n + 1) = Except.ok s := by
  refine ⟨rfl, ?_, ?_⟩
  · induction n with
    | zero => rfl
    | succ m ih =>
      have hstep : runRound o [] topic (m + 1 + 1) =
          match runRound o [] topic (m + 1) with
          | Except.error e => Except.error e
          | Except.ok s => discussionStep o (m + 1) s := rfl
      rw [hstep, ih]
  · intro b
    exact ⟨closedState o [b] "" (n + 1),
      runRound_closed o [b] "" (by simp) (n + 1)⟩

/-! ## Claim C5 -/

theorem filterMap_ttsTaskOf_map_fst (o : GenOracle) (bots : List Bot) :
    ∀ ks : List Nat,
      (ks.filterMap (ttsTaskOf o bots)).map Prod.fst =
        (ks.map (turnText o bots)).filter
          (fun t => t != "" && !(pyStartsWith t "[Error:"))
  | [] => rfl
  | k :: ks => by
    have ih := filterMap_ttsTaskOf_map_fst o bots ks
    by_cases hc : (turnText o bots k != "" &&
        !(pyStartsWith (turnText o bots k) "[Error:")) = true <;>
      simp [ttsTaskOf, List.filterMap_cons, List.filter_cons, hc, ih]

/-- C5: the sequence of texts the TTS worker hands to the Narrator, in
dequeue order, equals the filter of the produced turns' texts that are
non-empty and not error markers, in append order — in particular it is an
order-preserving subsequence (`List.Sublist`) of the turn texts in append
order, missing only the skipped (empty or failed) turns and the unvoiced
Moderator seed. -/
theorem c5_narration_order (o : GenOracle) (bots : List Bot)
    (topic : String) (n : Nat) (fails : Nat → Bool) (hb : bots ≠ []) :
    ∃ s, runRound o bots topic n = Except.ok s ∧
      (tts_worker_run fails 0 s.tts.queue).1.map Prod.fst =
        (s.history.tail.map Entry.message).filter
          (fun t => t != "" && !(pyStartsWith t "[Error:")) ∧
      List.Sublist
        ((tts_worker_run fails 0 s.tts.queue).1.map Prod.fst)
        (s.history.map Entry.message) := by
  have htail : (closedState o bots topic n).history.tail.map Entry.message =
      (List.range n).map (turnText o bots) := by
    simp only [closedState, historyAfter, List.tail_cons, List.map_map]
    rfl
  have hspoken :
      (tts_worker_run fails 0 (closedState o bots topic n).tts.queue).1.map
          Prod.fst =
        ((closedState o bots topic n).history.tail.map Entry.message).filter
          (fun t => t != "" && !(pyStartsWith t "[Error:")) := by
    show (tts_worker_run fails 0
        (((List.range n).filterMap (ttsTaskOf o bots)).map some)).1.map
          Prod.fst = _
    rw [tts_worker_run_spoken fails 0, htail,
      filterMap_ttsTaskOf_map_fst o bots (List.range n)]
  refine ⟨closedState o bots topic n, runRound_closed o bots topic hb n,
    hspoken, ?_⟩
  rw [hspoken, htail]
  have h1 : List.Sublist
      (((List.range n).map (turnText o bots)).filter
        (fun t => t != "" && !(pyStartsWith t "[Error:")))
      ((List.range n).map (turnText o bots)) := List.filter_sublist _
  have h2 : List.Sublist ((List.range n).map (turnText o bots))
      ((closedState o bots topic n).history.map Entry.message) := by
    rw [← htail]
    exact List.Sublist.map Entry.message (List.tail_sublist _)
  exact h1.trans h2

/-- Witness for C5: a failed first turn is skipped, Bob's turn is narrated,
and the narrated sequence is a subsequence of the log's texts. -/
theorem c5_witness :
    ∃ s, runRound oracleFailFirst [botA, botB] "T" 2 = Except.ok s ∧
      (tts_worker_run (fun _ => false) 0 s.tts.queue).1.map Prod.fst =
        (s.history.tail.map Entry.message).filter
          (fun t => t != "" && !(pyStartsWith t "[Error:")) ∧
      List.Sublist
        ((tts_worker_run (fun _ => false) 0 s.tts.queue).1.map Prod.fst)
        (s.history.map Entry.message) :=
  c5_narration_order oracleFailFirst [botA, botB] "T" 2 (fun _ => false)
    (by decide)

/-! ## Claim C9 -/

/-- C9: when the 1-second wait on the pre-generated future awaited at
iteration `k + 1` times out, the turn appended at log index `k + 2` is the
synchronously generated replacement (built from `syncOutcome (k + 1)`), the
context it used is the freshly read first `k + 2` history entries, and the
pre-generated reply's text — whenever it differs from every appended text —
appears nowhere in the history and nowhere on the TTS queue: the resolved
future is discarded, never appended, never narrated. -/
theorem c9_timeout_discards_pregen (o : GenOracle) (bots : List Bot)
    (topic : String) (n k : Nat) (hb : bots ≠ []) (hk : k + 1 < n)
    (ht : o.timedOut (k + 1) = true)
    (hdist : ∀ j, j < n → turnText o bots j ≠
      generate_response_stream (nthBot bots (k + 1)) (o.preOutcome k))
    (hseed : (seedEntry topic).message ≠
      generate_response_stream (nthBot bots (k + 1)) (o.preOutcome k)) :
    ∃ s, runRound o bots topic n = Except.ok s ∧
      s.history[k + 2]? = some
        { bot := (nthBot bots (k + 1)).name
          message := generate_response_stream (nthBot bots (k + 1))
            (o.syncOutcome (k + 1))
          timestamp := k + 2 } ∧
      s.usedContexts[k + 1]? = some (s.history.take (k + 2)) ∧
      (∀ e ∈ s.history, e.message ≠
        generate_response_stream (nthBot bots (k + 1)) (o.preOutcome k)) ∧
      (∀ p : String × String, some p ∈ s.tts.queue →
        p.1 ≠ generate_response_stream (nthBot bots (k + 1))
          (o.preOutcome k)) := by
  refine ⟨closedState o bots topic n, runRound_closed o bots topic hb n,
    ?_, ?_, ?_, ?_⟩
  · have h := historyAfter_getElem o bots topic
      (k := k + 2) (n := n) (by omega)
    simp only [closedState]
    rw [h]
    have h2 : entryAt o bots topic (k + 2) = turnEntry o bots (k + 1) := rfl
    rw [h2]
    simp [turnEntry, turnText, responseOutcome, ht]
  · have htake : (closedState o bots topic n).history.take (k + 2) =
        historyAfter o bots topic (k + 1) := by
      simp only [closedState]
      exact historyAfter_take o bots topic (by omega)
    rw [htake]
    simp only [closedState]
    rw [List.getElem?_map, List.getElem?_range hk]
    rfl
  · intro e he
    simp only [closedState, historyAfter, List.mem_cons, List.mem_map]
      at he
    rcases he with rfl | ⟨j, hj, rfl⟩
    · exact hseed
    · exact hdist j (List.mem_range.mp hj)
  · intro p hp
    simp only [closedState, List.mem_map, Option.some.injEq] at hp
    obtain ⟨a, ha, rfl⟩ := hp
    obtain ⟨j, hj, hja⟩ := List.mem_filterMap.mp ha
    have := (ttsTaskOf_eq o bots j a hja).1
    rw [this]
    exact hdist j (List.mem_range.mp hj)

/-- Witness for C9: with one persona, the future awaited at iteration 1
times out; the replacement text "sync" is appended at log index 2 and the
discarded pre-generated text "pre" appears nowhere. -/
theorem c9_witness :
    ∃ s, runRound oracleTimeout [botA] "T" 2 = Except.ok s ∧
      s.history[2]? = some
        { bot := (nthBot [botA] 1).name
          message := generate_response_stream (nthBot [botA] 1)
            (oracleTimeout.syncOutcome 1)
          timestamp := 2 } ∧
      s.usedContexts[1]? = some (s.history.take 2) ∧
      (∀ e ∈ s.history, e.message ≠
        generate_response_stream (nthBot [botA] 1)
          (oracleTimeout.preOutcome 0)) ∧
      (∀ p : String × String, some p ∈ s.tts.queue →
        p.1 ≠ generate_response_stream (nthBot [botA] 1)
          (oracleTimeout.preOutcome 0)) :=
  c9_timeout_discards_pregen oracleTimeout [botA] "T" 2 0 (by decide)
    (by decide) (by decide) (by decide) (by decide)

end AgenticChat
